import Mathlib

/-!
Verification of the alarm-window, field-editing, brightness-adjustment and
alarm-completion logic of the SunriseAlarmClock firmware
(src/SunriseAlarmClock.ino), embedded shallowly: `byte`/`uint8_t` values are
modelled as `Nat` with explicit `% 256` where C truncation matters, and the
16-bit unsigned arithmetic of the AVR target as explicit `% 65536`.
-/

namespace SunriseAlarm

/-- Embedding of `isAlarmOn()` (SunriseAlarmClock.ino lines 480-492).
The global reads `hour()`, `minute()`, `alarmHour`, `alarmMinute`,
`alarmDuration` are passed as parameters. -/
def isAlarmOn (nowHour nowMinute alarmHour alarmMinute alarmDuration : Nat) : Bool :=
  if alarmMinute ≥ alarmDuration then
    -- minute handle doesn't pass 0 in the duration
    nowHour == alarmHour
      && decide (nowMinute ≥ alarmMinute - alarmDuration)
      && decide (nowMinute < alarmMinute)
  else
    let startHour := if alarmHour == 0 then 23 else alarmHour - 1
    let startMinute := 60 - (alarmDuration - alarmMinute)
    (nowHour == startHour && decide (nowMinute ≥ startMinute))
      || (nowHour == alarmHour && decide (nowMinute < alarmMinute))

/-- Minutes since midnight of a wall-clock time. -/
def minutesOfDay (h m : Nat) : Nat := 60 * h + m

/-- The window start described by the claim: `(alarmHour, alarmMinute -
durationMinutes)` when `alarmMinute ≥ durationMinutes`, otherwise
`(alarmHour - 1 wrapping 0 to 23, 60 - (durationMinutes - alarmMinute))`. -/
def windowStartMinutes (alarmHour alarmMinute alarmDuration : Nat) : Nat :=
  if alarmMinute ≥ alarmDuration then
    minutesOfDay alarmHour (alarmMinute - alarmDuration)
  else
    minutesOfDay (if alarmHour = 0 then 23 else alarmHour - 1)
      (60 - (alarmDuration - alarmMinute))

/-- Membership of the current time in the half-open window of
`alarmDuration` minutes beginning at `windowStartMinutes`, on the 1440-minute
circle of a day: the elapsed time since the window start, measured modulo
1440, is less than the duration. -/
def inWindowSpec (nowHour nowMinute alarmHour alarmMinute alarmDuration : Nat) : Prop :=
  (minutesOfDay nowHour nowMinute + 1440
      - windowStartMinutes alarmHour alarmMinute alarmDuration) % 1440
    < alarmDuration

/-- Embedding of `handleAlarmTime(int8_t encDir, byte &var, byte maxNumber)`
(SunriseAlarmClock.ino lines 468-475); returns the new value of `var`.
`ENC_CW = 1`, `ENC_CCW = -1`.  The `% 256` reflects the `byte` store of
`var + 1`. -/
def handleAlarmTime (encDir : Int) (var maxNumber : Nat) : Nat :=
  if encDir = 1 then
    if var = maxNumber then 0 else (var + 1) % 256
  else if encDir = -1 then
    if var = 0 then maxNumber else var - 1
  else
    var

/-- Embedding of the main-view brightness adjustment (SunriseAlarmClock.ino
lines 285-297), the body of the `lightOn && encDir && uiState == mainView`
branch; returns the new `lightIntensity`.  On the AVR target `int` is 16
bits, so the C expression `120 - encSpeed` (with `encSpeed : uint16_t`) is
computed modulo 2^16, and the store `lightIntensity + encSpeed` into the
`uint8_t` variable truncates modulo 2^8.  Valid for `encSpeed ≤ 65535`. -/
def adjustBrightness (encDir : Int) (lightIntensity encSpeed : Nat) : Nat :=
  if encDir = 1 then
    if lightIntensity > (120 + 65536 - encSpeed) % 65536 then 120
    else (lightIntensity + encSpeed) % 256
  else if encDir = -1 then
    if lightIntensity < encSpeed then 5
    else lightIntensity - encSpeed
  else
    lightIntensity

/-- The global state read and written by the alarm-evaluation block of
`loop()` (SunriseAlarmClock.ino lines 325-332). -/
structure AlarmState where
  alarmEnabled : Bool
  lightOn : Bool
  lightIntensity : Nat
  alarmIntensity : Nat
  alarmHour : Nat
  alarmMinute : Nat
  alarmDuration : Nat
deriving DecidableEq, Repr

/-- Embedding of the alarm-evaluation block of `loop()` (SunriseAlarmClock.ino
lines 325-332): under `alarmEnabled && isAlarmOn()`, when `alarmIntensity`
has reached 255 the lamp is switched on at intensity 255 and the ramp
counter is reset to 0; otherwise the state is untouched. -/
def evalAlarm (s : AlarmState) (nowHour nowMinute : Nat) : AlarmState :=
  if s.alarmEnabled
      && isAlarmOn nowHour nowMinute s.alarmHour s.alarmMinute s.alarmDuration then
    if s.alarmIntensity = 255 then
      { s with lightOn := true, lightIntensity := 255, alarmIntensity := 0 }
    else s
  else s

/-- The three UI views of the `uiStates` enum (SunriseAlarmClock.ino
lines 59-63). -/
inductive UiState where
  | mainView
  | setAlarmView
  | setTimeView
deriving DecidableEq, Repr

/-- The idle time used by the timeout test of `loop()` (SunriseAlarmClock.ino
line 336): `((second() - lastSecond) + 60) % 60`, computed on the second
counters 0-59. -/
def timeoutElapsed (sec lastSecond : Nat) : Nat := (sec + 60 - lastSecond) % 60

/-- Embedding of the auto-revert test of the render tick (SunriseAlarmClock.ino
lines 335-339): outside the main view, when the idle time exceeds 15 seconds
`switchToMainView()` is called; returns the resulting `uiState`. -/
def renderTickView (ui : UiState) (sec lastSecond : Nat) : UiState :=
  if ui ≠ UiState.mainView ∧ timeoutElapsed sec lastSecond > 15 then
    UiState.mainView
  else
    ui

/-- Embedding of `secondsPerStep = alarmDuration * 60 / 255`
(SunriseAlarmClock.ino lines 139 and 309), with C integer division. -/
def secondsPerStep (alarmDuration : Nat) : Nat := alarmDuration * 60 / 255

/-- Modelled from the spec: the Dimming Curve Engine (`buildCurve`, spec
section 4.2) is absent from src/ — the alarm block of `loop()` holds only the
placeholder comment "do alarm handling here (incrementing alarmIntensity)".
Level of step `i` of the ramp, following the spec formula
`level(i) = minLevel * (maxLevel/minLevel) ^ (i / totalSteps)` with the final
value clamped to `maxLevel`; the ramp runs through `i = 0 .. totalSteps`, the
final step being the full-brightness handoff the spec clamps to `maxLevel`. -/
noncomputable def curveLevel (minLevel maxLevel totalSteps i : ℕ) : ℝ :=
  min (maxLevel : ℝ)
    ((minLevel : ℝ) * ((maxLevel : ℝ) / (minLevel : ℝ)) ^ ((i : ℝ) / (totalSteps : ℝ)))

/-- C1: `isAlarmOn` is true exactly when the current time lies in the
half-open window of `alarmDuration` minutes ending at the alarm time, whose
start is `(alarmHour, alarmMinute - alarmDuration)` when
`alarmMinute ≥ alarmDuration` and wraps into the previous hour otherwise. -/
theorem isAlarmOn_iff_inWindow
    (nh nm ah am d : Nat)
    (hnh : nh ≤ 23) (hnm : nm ≤ 59) (hah : ah ≤ 23) (ham : am ≤ 59) (hd : d ≤ 30) :
    isAlarmOn nh nm ah am d = true ↔ inWindowSpec nh nm ah am d := by
  simp only [isAlarmOn, inWindowSpec, windowStartMinutes, minutesOfDay, ge_iff_le]
  by_cases hcase : d ≤ am
  · simp only [if_pos hcase, Bool.and_eq_true, decide_eq_true_eq, beq_iff_eq]
    omega
  · simp only [if_neg hcase]
    by_cases hz : ah = 0
    · have hb : (ah == 0) = true := by simp [hz]
      simp only [hz, hb, if_pos, if_true, Bool.or_eq_true, Bool.and_eq_true,
        decide_eq_true_eq, beq_iff_eq]
      omega
    · have hb : (ah == 0) = false := by simp [hz]
      simp only [if_neg hz, hb, Bool.false_eq_true, if_false, Bool.or_eq_true,
        Bool.and_eq_true, decide_eq_true_eq, beq_iff_eq]
      omega

/-- C2: a zero duration gives an empty window: `isAlarmOn` is false for every
current time and every alarm hour and minute. -/
theorem isAlarmOn_zero_duration (nh nm ah am : Nat) :
    isAlarmOn nh nm ah am 0 = false := by
  have h : am ≥ 0 := Nat.zero_le am
  rw [isAlarmOn, if_pos h, Bool.eq_false_iff]
  intro hcontra
  simp only [Bool.and_eq_true, decide_eq_true_eq, beq_iff_eq] at hcontra
  omega

/-- Witness for C1 at the wraparound example: alarm 0:10, duration 15,
current time 23:57, where the predicate is true and membership follows. -/
theorem isAlarmOn_iff_inWindow_witness :
    isAlarmOn 23 57 0 10 15 = true ∧ inWindowSpec 23 57 0 10 15 :=
  ⟨by decide,
    (isAlarmOn_iff_inWindow 23 57 0 10 15 (by decide) (by decide) (by decide)
      (by decide) (by decide)).mp (by decide)⟩

/-- C6: a single `handleAlarmTime` call with direction in -1, 0, +1 keeps the
field inside 0..maxNumber, wrapping `maxNumber` up to 0 and 0 down to
`maxNumber`; instantiating `maxNumber` at 23, 59 and 30 keeps hours, minutes
and the duration in their ranges. -/
theorem handleAlarmTime_in_range (encDir : Int) (var maxNumber : Nat)
    (hvar : var ≤ maxNumber) (hmax : maxNumber ≤ 255)
    (hdir : encDir = -1 ∨ encDir = 0 ∨ encDir = 1) :
    handleAlarmTime encDir var maxNumber ≤ maxNumber ∧
      handleAlarmTime 1 maxNumber maxNumber = 0 ∧
      handleAlarmTime (-1) 0 maxNumber = maxNumber := by
  refine ⟨?_, by simp [handleAlarmTime], by simp [handleAlarmTime]⟩
  rcases hdir with h | h | h <;> subst h <;>
    simp only [handleAlarmTime] <;> split_ifs <;> omega

/-- Witness for C6: editing an hour field holding 5 clockwise stays in range,
23 wraps up to 0, and 0 wraps down to 23. -/
theorem handleAlarmTime_in_range_witness :
    handleAlarmTime 1 5 23 ≤ 23 ∧
      handleAlarmTime 1 23 23 = 0 ∧ handleAlarmTime (-1) 0 23 = 23 :=
  handleAlarmTime_in_range 1 5 23 (by decide) (by decide) (Or.inr (Or.inr rfl))

/-- C7: incrementing an hour field 24 times returns it to its starting value,
and decrementing once from 0 yields 23. -/
theorem handleAlarmTime_hour_roundtrip (v : Nat) (h : v ≤ 23) :
    (fun x => handleAlarmTime 1 x 23)^[24] v = v ∧
      handleAlarmTime (-1) 0 23 = 23 := by
  have hv : v < 24 := by omega
  refine ⟨?_, by decide⟩
  interval_cases v <;> decide

/-- Witness for C7 at starting hour 7. -/
theorem handleAlarmTime_hour_roundtrip_witness :
    (fun x => handleAlarmTime 1 x 23)^[24] 7 = 7 ∧
      handleAlarmTime (-1) 0 23 = 23 :=
  handleAlarmTime_hour_roundtrip 7 (by decide)

/-- C9: with encoder direction 0 (no rotation this poll) `handleAlarmTime`
leaves the field unchanged, for every value and every bound. -/
theorem handleAlarmTime_zero_dir (var maxNumber : Nat) :
    handleAlarmTime 0 var maxNumber = var := by
  simp [handleAlarmTime]

/-- Counterexample to C10 as stated: with encoder speed 200 the 16-bit
computation `120 - encSpeed` wraps, the clamp comparison fails, and a
clockwise turn at intensity 55 lands on 255 — above 120 and exactly the
value alarm completion assigns. -/
theorem adjustBrightness_counterexample :
    adjustBrightness 1 55 200 = 255 ∧ ¬ adjustBrightness 1 55 200 ≤ 120 := by
  decide

/-- C10 amended: with encoder speed at most 120 a clockwise turn leaves the
intensity at most 120; a counter-clockwise turn sets it to the floor 5
whenever the intensity is below the speed, and never raises it above
`max lightIntensity 5`, so it cannot produce 255 from a smaller value. -/
theorem adjustBrightness_amended (lightIntensity encSpeed : Nat) :
    (encSpeed ≤ 120 → adjustBrightness 1 lightIntensity encSpeed ≤ 120) ∧
      (lightIntensity < encSpeed → adjustBrightness (-1) lightIntensity encSpeed = 5) ∧
      adjustBrightness (-1) lightIntensity encSpeed ≤ max lightIntensity 5 := by
  refine ⟨fun h => ?_, fun h => ?_, ?_⟩
  · simp [adjustBrightness]
    split_ifs <;> omega
  · simp [adjustBrightness]
    omega
  · simp [adjustBrightness]
    split_ifs <;> omega

/-- Witness for C10 amended: speed 30 keeps a clockwise turn at 100 within
120, and a counter-clockwise turn at intensity 3 with speed 10 floors at 5. -/
theorem adjustBrightness_amended_witness :
    adjustBrightness 1 100 30 ≤ 120 ∧ adjustBrightness (-1) 3 10 = 5 :=
  ⟨(adjustBrightness_amended 100 30).1 (by decide),
    (adjustBrightness_amended 3 10).2.1 (by decide)⟩

/-- C4: when the alarm is enabled, the time is inside the window and the ramp
counter has reached 255, one evaluation pass turns the lamp on at intensity
255 and resets the ramp counter to 0; a second pass in the same situation
changes nothing more. -/
theorem evalAlarm_completion (s : AlarmState) (nh nm : Nat)
    (he : s.alarmEnabled = true)
    (hw : isAlarmOn nh nm s.alarmHour s.alarmMinute s.alarmDuration = true)
    (hi : s.alarmIntensity = 255) :
    (evalAlarm s nh nm).lightOn = true ∧
      (evalAlarm s nh nm).lightIntensity = 255 ∧
      (evalAlarm s nh nm).alarmIntensity = 0 ∧
      evalAlarm (evalAlarm s nh nm) nh nm = evalAlarm s nh nm := by
  have h1 : evalAlarm s nh nm =
      { s with lightOn := true, lightIntensity := 255, alarmIntensity := 0 } := by
    simp [evalAlarm, he, hw, hi]
  refine ⟨by rw [h1], by rw [h1], by rw [h1], ?_⟩
  rw [h1]
  simp [evalAlarm, he, hw]

/-- Witness for C4: alarm 6:30 with duration 15 at 6:20, ramp exhausted. -/
theorem evalAlarm_completion_witness :
    (evalAlarm ⟨true, false, 5, 255, 6, 30, 15⟩ 6 20).lightOn = true ∧
      (evalAlarm ⟨true, false, 5, 255, 6, 30, 15⟩ 6 20).lightIntensity = 255 ∧
      (evalAlarm ⟨true, false, 5, 255, 6, 30, 15⟩ 6 20).alarmIntensity = 0 ∧
      evalAlarm (evalAlarm ⟨true, false, 5, 255, 6, 30, 15⟩ 6 20) 6 20
        = evalAlarm ⟨true, false, 5, 255, 6, 30, 15⟩ 6 20 :=
  evalAlarm_completion ⟨true, false, 5, 255, 6, 30, 15⟩ 6 20 rfl (by decide) rfl

/-- C5: with the alarm disabled, one evaluation pass leaves the lamp state
alone — `lightOn` and `lightIntensity` are unchanged, whatever the ramp
counter holds. -/
theorem evalAlarm_disabled (s : AlarmState) (nh nm : Nat)
    (h : s.alarmEnabled = false) :
    (evalAlarm s nh nm).lightOn = s.lightOn ∧
      (evalAlarm s nh nm).lightIntensity = s.lightIntensity := by
  simp [evalAlarm, h]

/-- Witness for C5: disabled alarm mid-ramp (counter 5), lamp untouched. -/
theorem evalAlarm_disabled_witness :
    (evalAlarm ⟨false, true, 42, 5, 6, 30, 15⟩ 6 20).lightOn = true ∧
      (evalAlarm ⟨false, true, 42, 5, 6, 30, 15⟩ 6 20).lightIntensity = 42 :=
  evalAlarm_disabled ⟨false, true, 42, 5, 6, 30, 15⟩ 6 20 rfl

/-- Counterexample to C8 as stated: with exactly 15 idle seconds elapsed the
render tick does not leave the set-alarm view, because the code requires the
idle time to exceed 15. -/
theorem renderTick_counterexample :
    timeoutElapsed 15 0 = 15 ∧
      renderTickView UiState.setAlarmView 15 0 = UiState.setAlarmView := by
  decide

/-- C8 amended: in an edit view the render tick reverts to the main view
exactly when strictly more than 15 idle seconds (measured modulo 60 on the
second counters) have elapsed, and stays put at 15 seconds or fewer. -/
theorem renderTick_timeout (ui : UiState) (sec lastSecond : Nat)
    (hedit : ui ≠ UiState.mainView) :
    (timeoutElapsed sec lastSecond > 15 →
        renderTickView ui sec lastSecond = UiState.mainView) ∧
      (timeoutElapsed sec lastSecond ≤ 15 →
        renderTickView ui sec lastSecond = ui) := by
  constructor
  · intro h
    rw [renderTickView, if_pos ⟨hedit, h⟩]
  · intro h
    rw [renderTickView, if_neg]
    rintro ⟨-, hgt⟩
    omega

/-- Witness for C8 amended: 30 idle seconds revert the set-alarm view, 10
idle seconds keep the set-time view. -/
theorem renderTick_timeout_witness :
    renderTickView UiState.setAlarmView 30 0 = UiState.mainView ∧
      renderTickView UiState.setTimeView 10 0 = UiState.setTimeView :=
  ⟨(renderTick_timeout UiState.setAlarmView 30 0 (by decide)).1 (by decide),
    (renderTick_timeout UiState.setTimeView 10 0 (by decide)).2 (by decide)⟩

/-- C3: the modelled exponential brightness curve is monotonically
non-decreasing step to step, and its final entry equals `maxLevel` after
clamping, whenever the duration (hence `totalSteps`) is positive. -/
theorem curveLevel_monotone_and_complete (minLevel maxLevel totalSteps : ℕ)
    (hmin : 0 < minLevel) (hle : minLevel ≤ maxLevel) (hsteps : 0 < totalSteps) :
    (∀ i, i < totalSteps →
        curveLevel minLevel maxLevel totalSteps i
          ≤ curveLevel minLevel maxLevel totalSteps (i + 1)) ∧
      curveLevel minLevel maxLevel totalSteps totalSteps = (maxLevel : ℝ) := by
  have hmin' : (0 : ℝ) < (minLevel : ℝ) := by exact_mod_cast hmin
  have hn : (0 : ℝ) < (totalSteps : ℝ) := by exact_mod_cast hsteps
  have hr : 1 ≤ (maxLevel : ℝ) / (minLevel : ℝ) :=
    (one_le_div hmin').mpr (by exact_mod_cast hle)
  constructor
  · intro i _
    unfold curveLevel
    apply min_le_min le_rfl
    apply mul_le_mul_of_nonneg_left _ (le_of_lt hmin')
    apply Real.rpow_le_rpow_of_exponent_le hr
    have hi : (i : ℝ) ≤ ((i + 1 : ℕ) : ℝ) := by push_cast; linarith
    exact div_le_div_of_nonneg_right hi hn.le
  · unfold curveLevel
    rw [div_self (ne_of_gt hn), Real.rpow_one]
    have hms : (minLevel : ℝ) * ((maxLevel : ℝ) / (minLevel : ℝ)) = (maxLevel : ℝ) := by
      field_simp
    rw [hms, min_self]

/-- Witness for C3 at the scenario parameters `minLevel = 5`, `maxLevel = 95`
and the 255-step discretization. -/
theorem curveLevel_witness :
    (∀ i, i < 255 → curveLevel 5 95 255 i ≤ curveLevel 5 95 255 (i + 1)) ∧
      curveLevel 5 95 255 255 = ((95 : ℕ) : ℝ) :=
  curveLevel_monotone_and_complete 5 95 255 (by norm_num) (by norm_num) (by norm_num)

end SunriseAlarm
